import Mathlib

/-!
Verification of the slide composition & relationship-resolution engine of
PptxGenJS (`src/slide.ts`), as a shallow embedding.

`Slide` in `slide.ts` is a delegation layer: its composition methods forward
to the builder functions of `gen-objects.ts` (`genObj.add*Definition`), which
is not part of the provided sources. The delegation layer (constructor,
property accessors, the `addChart` option-aliasing step, and the
`return this` shape of every method) is translated directly from
`src/slide.ts`; the builder functions are modelled from the specification,
each such definition saying so in its doc comment.

JavaScript mutation semantics: every fallible operation is modelled as a
state transformer `Slide → Slide × Option PptxError` — the returned `Slide`
is the state of the receiver (`this`) after the call, whether or not an
error was thrown, because JavaScript mutates the receiver in place and a
throw does not roll mutations back. `none` means normal return.
-/

namespace PptxGenJS

/-- The slide-number rendering spec (`ISlideNumber`): position and font
options for the rendered slide number. -/
structure ISlideNumber where
  x : Int
  y : Int
  fontFace : Option String := none
  fontSize : Option Nat := none
deriving DecidableEq

/-- A slide layout (`ISlideLayout`): a template object a Slide may
reference; it may carry its own slide-number spec. -/
structure ISlideLayout where
  name : String
  slideNumberObj : Option ISlideNumber := none
deriving DecidableEq

/-- Presentation-wide page geometry (`ILayout`), shared read-only. -/
structure ILayout where
  name : String
  width : Nat
  height : Nat
deriving DecidableEq

/-- Background options (`BkgdOpts`): solid fill, base64 data, or path. -/
structure BkgdOpts where
  fill : Option String := none
  data : Option String := none
  path : Option String := none
deriving DecidableEq

/-- Image options (`IImageOpts`), reduced to the fields the claims need. -/
structure IImageOpts where
  path : Option String := none
  data : Option String := none
  x : Option Int := none
  y : Option Int := none
deriving DecidableEq

/-- Media (audio/video) options (`MediaOpts`). -/
structure MediaOpts where
  path : Option String := none
  data : Option String := none
deriving DecidableEq

/-- One series of chart data (an element of the `data: any[]` argument). -/
structure ChartData where
  name : String
  labels : List String
  values : List Int
deriving DecidableEq

/-- One entry of an `IChartMulti[]` composite chart argument. -/
structure IChartMulti where
  chartType : String
  chartData : List ChartData
deriving DecidableEq

/-- The first argument of `addChart`: `CHART_NAME | IChartMulti[]`.
`CHART_NAME` is a string union, modelled as `String`. -/
inductive ChartTypeArg where
  | single (name : String)
  | multi (specs : List IChartMulti)
deriving DecidableEq

/-- Chart options (`IChartOpts` / `IChartOptsLib`). `_type` is the
library-internal field `addChart` assigns onto the options object. -/
structure IChartOpts where
  x : Option Int := none
  y : Option Int := none
  title : Option String := none
  _type : Option ChartTypeArg := none
deriving DecidableEq

/-- A table row (`TableRow`), modelled as its list of cell texts. -/
abbrev TableRow : Type := List String

/-- Table options (`ITableOptions`), reduced to geometry fields. -/
structure ITableOptions where
  x : Option Int := none
  y : Option Int := none
deriving DecidableEq

/-- Text options (`ITextOpts`), reduced to geometry fields. -/
structure ITextOpts where
  x : Option Int := none
  y : Option Int := none
deriving DecidableEq

/-- Shape options (`ShapeOptions`), reduced to geometry fields. -/
structure ShapeOptions where
  x : Option Int := none
  y : Option Int := none
deriving DecidableEq

/-- The discriminant of a content entry (`SLIDE_OBJECT_TYPES`). -/
inductive SlideObjectType where
  | text
  | shape
  | image
  | media
  | table
  | chart
  | rawXml
deriving DecidableEq

/-- A content entry (`ISlideObject`): a discriminated variant over the
content kinds, carrying its kind-specific payload and, for resource-bearing
kinds, the relationship id allocated for it. -/
structure ISlideObject where
  _type : SlideObjectType
  text : Option String := none
  shapeName : Option String := none
  imageOpts : Option IImageOpts := none
  mediaOpts : Option MediaOpts := none
  rows : Option (List TableRow) := none
  chartType : Option ChartTypeArg := none
  chartData : Option (List ChartData) := none
  xml : Option String := none
  relId : Option Nat := none
deriving DecidableEq

/-- An image-kind relationship entry (`ISlideRel`). -/
structure ISlideRel where
  rId : Nat
  target : String
deriving DecidableEq

/-- A chart relationship entry (`ISlideRelChart`). -/
structure ISlideRelChart where
  rId : Nat
  chartType : ChartTypeArg
deriving DecidableEq

/-- A media relationship entry (`ISlideRelMedia`). -/
structure ISlideRelMedia where
  rId : Nat
  target : String
deriving DecidableEq

/-- The error taxonomy; for the claims at hand only `ValidationError`
matters (spec §7). -/
inductive PptxError where
  | validationError (msg : String)
deriving DecidableEq

/-- The `Slide` state (`src/slide.ts` fields). The callback fields
(`addSlide`, `getSlide`, `_setSlideNum`) are not stored — they are passed
explicitly to the operations that invoke them. `notes` is the reserved
speaker-notes slot (spec §4.1: notes update a single reserved slot rather
than appending to the visible-content list). -/
structure Slide where
  id : Nat
  rId : Nat
  name : String
  number : Nat
  data : List ISlideObject
  rels : List ISlideRel
  relsChart : List ISlideRelChart
  relsMedia : List ISlideRelMedia
  slideLayout : Option ISlideLayout
  slideNumberObj : Option ISlideNumber
  _slideNumber : Option ISlideNumber := none
  _bkgd : Option String := none
  _background : Option BkgdOpts := none
  _color : Option String := none
  _hidden : Option Bool := none
  notes : Option String := none
deriving DecidableEq

/-- The constructor parameters of `Slide` (`slide.ts` lines 46–55), the
callback parameters omitted (see `Slide`). -/
structure SlideParams where
  presLayout : ILayout
  slideId : Nat
  slideRId : Nat
  slideNumber : Nat
  slideLayout : Option ISlideLayout := none
deriving DecidableEq

/-- The `Slide` constructor (`slide.ts` lines 46–73): content list and the
three relationship tables start empty; `name` is `'Slide ' + slideNumber`;
`slideLayout` is the given layout or null when omitted (`params.slideLayout
|| null`); `slideNumberObj` is the layout's spec when the layout exists and
defines one, else null. -/
def newSlide (params : SlideParams) : Slide :=
  { id := params.slideId
    rId := params.slideRId
    name := "Slide " ++ toString params.slideNumber
    number := params.slideNumber
    data := []
    rels := []
    relsChart := []
    relsMedia := []
    slideLayout := params.slideLayout
    slideNumberObj :=
      match params.slideLayout with
      | some layout => layout.slideNumberObj
      | none => none }

/-- Modelled from the spec: the RelationshipAllocator (§4.2) lives in the
builder layer (`gen-objects.ts`), which is not among the provided sources.
Per §4.2/§3, `register` allocates the next identifier in the calling
slide's namespace — one past the total number of relationships already
recorded across the slide's three tables — so ids start at 1 and are
strictly increasing regardless of resource kind. -/
def Slide.nextRelId (s : Slide) : Nat :=
  s.rels.length + s.relsChart.length + s.relsMedia.length + 1

namespace genObj

/-- Modelled from the spec: `gen-objects.addTextDefinition` is not among
the provided sources. Per §4.1, on success it appends exactly one Text
ContentObject to the slide's content list. Text input `string | IText[]`
is modelled as the plain string form. -/
def addTextDefinition (target : Slide) (text : String) (_opts : Option ITextOpts) :
    Slide × Option PptxError :=
  ({ target with data := target.data ++ [{ _type := .text, text := some text }] }, none)

/-- Modelled from the spec: `gen-objects.addShapeDefinition` is not among
the provided sources. Per §4.1, on success it appends exactly one Shape
ContentObject. `SHAPE_NAME` is a string union, modelled as `String`. -/
def addShapeDefinition (target : Slide) (shapeName : String) (_opts : Option ShapeOptions) :
    Slide × Option PptxError :=
  ({ target with data := target.data ++ [{ _type := .shape, shapeName := some shapeName }] }, none)

/-- Modelled from the spec: `gen-objects.addImageDefinition` is not among
the provided sources. Per §4.1/§4.3, it registers one relationship via the
RelationshipAllocator, tags the ContentObject with the returned identifier,
and appends exactly one Image ContentObject. -/
def addImageDefinition (target : Slide) (options : IImageOpts) :
    Slide × Option PptxError :=
  let rid := target.nextRelId
  ({ target with
      rels := target.rels ++ [{ rId := rid, target := (options.path.orElse fun _ => options.data).getD "" }]
      data := target.data ++ [{ _type := .image, imageOpts := some options, relId := some rid }] },
    none)

/-- Modelled from the spec: `gen-objects.addMediaDefinition` is not among
the provided sources. Per §4.1/§4.3, it registers one media relationship
and appends exactly one Media ContentObject tagged with the new id. -/
def addMediaDefinition (target : Slide) (options : MediaOpts) :
    Slide × Option PptxError :=
  let rid := target.nextRelId
  ({ target with
      relsMedia := target.relsMedia ++ [{ rId := rid, target := (options.path.orElse fun _ => options.data).getD "" }]
      data := target.data ++ [{ _type := .media, mediaOpts := some options, relId := some rid }] },
    none)

/-- Modelled from the spec: `gen-objects.addChartDefinition` is not among
the provided sources. Per §4.1/§4.3, it registers one chart relationship
and appends exactly one Chart ContentObject tagged with the new id. -/
def addChartDefinition (target : Slide) (type : ChartTypeArg) (dat : List ChartData)
    (_options : Option IChartOpts) : Slide × Option PptxError :=
  let rid := target.nextRelId
  ({ target with
      relsChart := target.relsChart ++ [{ rId := rid, chartType := type }]
      data := target.data ++
        [{ _type := .chart, chartType := some type, chartData := some dat, relId := some rid }] },
    none)

/-- Modelled from the spec: `gen-objects.addTableDefinition` is not among
the provided sources. Per §4.3 item 5 and §8, an empty row set is rejected
with a ValidationError before any state change (atomicity, §4.1);
otherwise exactly one Table ContentObject is appended. -/
def addTableDefinition (target : Slide) (tableRows : List TableRow)
    (_opts : Option ITableOptions) : Slide × Option PptxError :=
  if tableRows.isEmpty then
    (target, some (.validationError "addTable: empty row set"))
  else
    ({ target with data := target.data ++ [{ _type := .table, rows := some tableRows }] }, none)

/-- Modelled from the spec: `gen-objects.addNotesDefinition` is not among
the provided sources. Per §4.1, notes update a single reserved notes slot
rather than appending to the visible-content list. -/
def addNotesDefinition (target : Slide) (notes : String) : Slide × Option PptxError :=
  ({ target with notes := some notes }, none)

/-- Modelled from the spec: `gen-objects.addXMLDefinition` is not among
the provided sources. Per §4.1, on success it appends exactly one
RawMarkup ContentObject. -/
def addXMLDefinition (target : Slide) (xml : String) : Slide × Option PptxError :=
  ({ target with data := target.data ++ [{ _type := .rawXml, xml := some xml }] }, none)

/-- Modelled from the spec: `gen-objects.addBackgroundDefinition` is not
among the provided sources. Per §8 ("Writing `background` then reading it
returns the exact value written") it stores the given value in the
canonical `_background` field; it touches no other Slide state. -/
def addBackgroundDefinition (value : BkgdOpts) (target : Slide) : Slide :=
  { target with _background := some value }

end genObj

/-- Modelled from the spec: the serializer-facing effective background.
Per §4.1/§8, the structured `background` value always takes precedence
over the legacy single-color `bkgd` string when both are present. -/
def effectiveBackground (s : Slide) : Option (Sum BkgdOpts String) :=
  match s._background with
  | some b => some (Sum.inl b)
  | none => s._bkgd.map Sum.inr

/-- The `bkgd` setter (`slide.ts` lines 81–83): stores the string. -/
def Slide.setBkgd (s : Slide) (value : String) : Slide :=
  { s with _bkgd := some value }

/-- The `bkgd` getter (`slide.ts` lines 84–86). -/
def Slide.getBkgd (s : Slide) : Option String :=
  s._bkgd

/-- The `background` setter (`slide.ts` lines 97–99): delegates to
`genObj.addBackgroundDefinition(value, this)`. -/
def Slide.setBackground (s : Slide) (value : BkgdOpts) : Slide :=
  genObj.addBackgroundDefinition value s

/-- The `background` getter (`slide.ts` lines 100–102). -/
def Slide.getBackground (s : Slide) : Option BkgdOpts :=
  s._background

/-- The `color` setter (`slide.ts` lines 109–111). -/
def Slide.setColor (s : Slide) (value : String) : Slide :=
  { s with _color := some value }

/-- The `hidden` setter (`slide.ts` lines 120–122). -/
def Slide.setHidden (s : Slide) (value : Bool) : Slide :=
  { s with _hidden := some value }

/-- The `slideNumber` setter (`slide.ts` lines 131–136), with the
presentation's `setSlideNum` callback (the propagation operation) passed
explicitly, as the constructor receives it, and an invocation log recording
each propagation call's argument. Following the statement order of the
source, `slideNumberObj` and `_slideNumber` are assigned *before*
`this._setSlideNum(value)` runs; the callback's outcome (`none` = normal
return, `some e` = thrown error surfacing to the caller) is returned last.
A throw does not undo the field assignments (in-place mutation). -/
def Slide.setSlideNumber (propagate : ISlideNumber → Option PptxError)
    (s : Slide) (value : ISlideNumber) (log : List ISlideNumber) :
    Slide × List ISlideNumber × Option PptxError :=
  let s' := { s with slideNumberObj := some value, _slideNumber := some value }
  (s', log ++ [value], propagate value)

/-- The `slideNumber` getter (`slide.ts` lines 137–139). -/
def Slide.getSlideNumber (s : Slide) : Option ISlideNumber :=
  s._slideNumber

/-- `Slide.addChart` (`slide.ts` lines 148–155). The source aliases the
caller's options object (`let optionsWithType = options || {}`) and writes
`optionsWithType._type = type` through that alias, so a non-null caller
object is mutated observably; the mutated object is what
`addChartDefinition` receives (it is the same reference as `options`).
The second component of the result is the caller's options object as the
caller observes it after the call. -/
def Slide.addChart (s : Slide) (type : ChartTypeArg) (dat : List ChartData)
    (options : Option IChartOpts) :
    (Slide × Option PptxError) × Option IChartOpts :=
  let optionsWithType : IChartOpts := { options.getD {} with _type := some type }
  let callerOptions : Option IChartOpts := options.map fun _ => optionsWithType
  (genObj.addChartDefinition s type dat callerOptions, callerOptions)

/-- `Slide.addImage` (`slide.ts` lines 162–165): delegates, returns `this`. -/
def Slide.addImage (s : Slide) (options : IImageOpts) : Slide × Option PptxError :=
  genObj.addImageDefinition s options

/-- `Slide.addMedia` (`slide.ts` lines 172–175): delegates, returns `this`. -/
def Slide.addMedia (s : Slide) (options : MediaOpts) : Slide × Option PptxError :=
  genObj.addMediaDefinition s options

/-- `Slide.addNotes` (`slide.ts` lines 183–186): delegates, returns `this`. -/
def Slide.addNotes (s : Slide) (notes : String) : Slide × Option PptxError :=
  genObj.addNotesDefinition s notes

/-- `Slide.addShape` (`slide.ts` lines 194–202): delegates, returns `this`. -/
def Slide.addShape (s : Slide) (shapeName : String) (options : Option ShapeOptions) :
    Slide × Option PptxError :=
  genObj.addShapeDefinition s shapeName options

/-- `Slide.addTable` (`slide.ts` lines 210–214): delegates, returns `this`. -/
def Slide.addTable (s : Slide) (tableRows : List TableRow) (options : Option ITableOptions) :
    Slide × Option PptxError :=
  genObj.addTableDefinition s tableRows options

/-- `Slide.addText` (`slide.ts` lines 222–225): delegates, returns `this`. -/
def Slide.addText (s : Slide) (text : String) (options : Option ITextOpts) :
    Slide × Option PptxError :=
  genObj.addTextDefinition s text options

/-- `Slide.addXML` (`slide.ts` lines 232–235): delegates, returns `this`. -/
def Slide.addXML (s : Slide) (xml : String) : Slide × Option PptxError :=
  genObj.addXMLDefinition s xml

/-- One visible-content composition call: the seven operations that append
to the content list (`addText`, `addShape`, `addImage`, `addMedia`,
`addTable`, `addChart`, `addXML`). -/
inductive CompCall where
  | text (t : String) (opts : Option ITextOpts)
  | shape (shapeName : String) (opts : Option ShapeOptions)
  | image (opts : IImageOpts)
  | media (opts : MediaOpts)
  | table (rows : List TableRow) (opts : Option ITableOptions)
  | chart (type : ChartTypeArg) (dat : List ChartData) (opts : Option IChartOpts)
  | xml (x : String)
deriving DecidableEq

/-- Dispatch one composition call to the corresponding `Slide` method. -/
def applyCall (s : Slide) : CompCall → Slide × Option PptxError
  | .text t o => s.addText t o
  | .shape n o => s.addShape n o
  | .image o => s.addImage o
  | .media o => s.addMedia o
  | .table r o => s.addTable r o
  | .chart ty d o => (s.addChart ty d o).1
  | .xml x => s.addXML x

/-- Run a sequence of composition calls, stopping at the first error. -/
def runCalls (s : Slide) : List CompCall → Slide × Option PptxError
  | [] => (s, none)
  | c :: cs =>
    match applyCall s c with
    | (s', none) => runCalls s' cs
    | (s', some e) => (s', some e)

/-- The content entry a composition call produces matches the call: same
discriminant and the call's own payload. -/
def entryMatches : CompCall → ISlideObject → Prop
  | .text t _, obj => obj._type = .text ∧ obj.text = some t
  | .shape n _, obj => obj._type = .shape ∧ obj.shapeName = some n
  | .image o, obj => obj._type = .image ∧ obj.imageOpts = some o
  | .media o, obj => obj._type = .media ∧ obj.mediaOpts = some o
  | .table r _, obj => obj._type = .table ∧ obj.rows = some r
  | .chart ty d _, obj => obj._type = .chart ∧ obj.chartType = some ty ∧ obj.chartData = some d
  | .xml x, obj => obj._type = .rawXml ∧ obj.xml = some x

/-- Every public operation of the `Slide` class: the seven content
composition calls, `addNotes`, and the four property setters. -/
inductive PublicOp where
  | comp (c : CompCall)
  | notes (t : String)
  | bkgdWrite (v : String)
  | backgroundWrite (v : BkgdOpts)
  | colorWrite (v : String)
  | hiddenWrite (v : Bool)
  | slideNumberWrite (v : ISlideNumber)
deriving DecidableEq

/-- Dispatch a public operation, keeping only the resulting `Slide` state
(errors and the propagation log are irrelevant to content ordering). -/
def applyPublic (propagate : ISlideNumber → Option PptxError) (s : Slide) :
    PublicOp → Slide
  | .comp c => (applyCall s c).1
  | .notes t => (s.addNotes t).1
  | .bkgdWrite v => s.setBkgd v
  | .backgroundWrite v => s.setBackground v
  | .colorWrite v => s.setColor v
  | .hiddenWrite v => s.setHidden v
  | .slideNumberWrite v => (Slide.setSlideNumber propagate s v []).1

/-- A resource-bearing composition call (`addImage`, `addMedia`,
`addChart`): the three that allocate a relationship entry. -/
inductive ResourceCall where
  | image (opts : IImageOpts)
  | media (opts : MediaOpts)
  | chart (type : ChartTypeArg) (dat : List ChartData) (opts : Option IChartOpts)
deriving DecidableEq

/-- Dispatch one resource-bearing call (all three always succeed). -/
def applyResource (s : Slide) : ResourceCall → Slide
  | .image o => (s.addImage o).1
  | .media o => (s.addMedia o).1
  | .chart ty d o => ((s.addChart ty d o).1).1

/-- Run a sequence of resource-bearing calls. -/
def runResource (s : Slide) : List ResourceCall → Slide
  | [] => s
  | c :: cs => runResource (applyResource s c) cs

/-- The relationship identifiers a run allocates, in allocation order. -/
def allocLog (s : Slide) : List ResourceCall → List Nat
  | [] => []
  | c :: cs => s.nextRelId :: allocLog (applyResource s c) cs

/-- All relationship identifiers recorded in the slide's three tables. -/
def relIds (s : Slide) : List Nat :=
  s.rels.map ISlideRel.rId ++ s.relsChart.map ISlideRelChart.rId ++
    s.relsMedia.map ISlideRelMedia.rId

/-- Total number of relationship entries across the three tables. -/
def relCount (s : Slide) : Nat :=
  s.rels.length + s.relsChart.length + s.relsMedia.length

/-- A concrete presentation layout, used by closed witness statements. -/
def exLayout : ILayout := { name := "LAYOUT_16x9", width := 10, height := 6 }

/-- Concrete constructor parameters, used by closed witness statements. -/
def exParams : SlideParams :=
  { presLayout := exLayout, slideId := 256, slideRId := 2, slideNumber := 1 }

/-- A concrete slide-number spec, used by closed witness statements. -/
def exSpec : ISlideNumber := { x := 1, y := 1 }

/-- A propagation callback that always throws. -/
def failingPropagate : ISlideNumber → Option PptxError :=
  fun _ => some (.validationError "propagateSlideNumber failed")

/-- A concrete sequence of composition calls, used by witnesses. -/
def exCalls : List CompCall :=
  [CompCall.text "Hello" none,
   CompCall.image { path := some "a.png" },
   CompCall.table [["cell"]] none]

section Theorems

/-- C8: the `Slide` constructor establishes its postconditions: empty
content list and relationship tables; `name` is the string `'Slide '`
followed by the slide number; `slideLayout` is the given layout or null
when omitted; `slideNumberObj` is the layout's spec when the layout exists
and defines one, otherwise null; identity fields are stored as given. -/
theorem C8_constructor_postconditions (p : SlideParams) :
    (newSlide p).data = [] ∧ (newSlide p).rels = [] ∧
    (newSlide p).relsChart = [] ∧ (newSlide p).relsMedia = [] ∧
    (newSlide p).name = "Slide " ++ toString p.slideNumber ∧
    (newSlide p).slideLayout = p.slideLayout ∧
    (newSlide p).id = p.slideId ∧ (newSlide p).rId = p.slideRId ∧
    (newSlide p).number = p.slideNumber ∧
    (newSlide p).slideNumberObj = p.slideLayout.bind ISlideLayout.slideNumberObj := by
  refine ⟨rfl, rfl, rfl, rfl, rfl, rfl, rfl, rfl, rfl, ?_⟩
  cases h : p.slideLayout <;> simp [newSlide, h]

/-- C2: writing `slideNumber` stores the value in `slideNumberObj` and
invokes the propagation callback exactly once per write (the log grows by
exactly the written spec); writing the same spec a second time leaves the
slide state unchanged (idempotent) while the propagation callback is still
invoked exactly once for each of the two writes. -/
theorem C2_slideNumber_idempotent_propagation
    (propagate : ISlideNumber → Option PptxError)
    (s : Slide) (v : ISlideNumber) (log : List ISlideNumber) :
    (Slide.setSlideNumber propagate s v log).1.slideNumberObj = some v ∧
    (Slide.setSlideNumber propagate s v log).2.1 = log ++ [v] ∧
    (Slide.setSlideNumber propagate
        (Slide.setSlideNumber propagate s v log).1 v
        (Slide.setSlideNumber propagate s v log).2.1).1
      = (Slide.setSlideNumber propagate s v log).1 ∧
    (Slide.setSlideNumber propagate
        (Slide.setSlideNumber propagate s v log).1 v
        (Slide.setSlideNumber propagate s v log).2.1).2.1
      = log ++ [v, v] := by
  refine ⟨rfl, rfl, rfl, ?_⟩
  simp [Slide.setSlideNumber]

/-- C3 counterexample: with a propagation callback that throws, the error
does surface, but `slideNumberObj` is NOT left as it was before the write —
the assignment precedes the propagation call and is not rolled back — so
the claim as stated is false at this input. -/
theorem C3_counterexample :
    (failingPropagate exSpec).isSome = true ∧
    (Slide.setSlideNumber failingPropagate (newSlide exParams) exSpec []).2.2.isSome = true ∧
    ¬ (Slide.setSlideNumber failingPropagate (newSlide exParams) exSpec []).1.slideNumberObj
        = (newSlide exParams).slideNumberObj := by
  refine ⟨rfl, rfl, ?_⟩
  decide

/-- C3 (amended): when the propagation callback throws, the error surfaces
to the caller of the write, but `slideNumberObj` (and the backing
`_slideNumber` field) has already been set to the new value — the local
store precedes the propagation call — while every other `Slide` field is
unaffected. -/
theorem C3_propagation_failure_surfaces
    (propagate : ISlideNumber → Option PptxError)
    (s : Slide) (v : ISlideNumber) (log : List ISlideNumber) (e : PptxError)
    (h : propagate v = some e) :
    (Slide.setSlideNumber propagate s v log).2.2 = some e ∧
    (Slide.setSlideNumber propagate s v log).1.slideNumberObj = some v ∧
    (Slide.setSlideNumber propagate s v log).1._slideNumber = some v ∧
    (Slide.setSlideNumber propagate s v log).1.id = s.id ∧
    (Slide.setSlideNumber propagate s v log).1.rId = s.rId ∧
    (Slide.setSlideNumber propagate s v log).1.name = s.name ∧
    (Slide.setSlideNumber propagate s v log).1.number = s.number ∧
    (Slide.setSlideNumber propagate s v log).1.data = s.data ∧
    (Slide.setSlideNumber propagate s v log).1.rels = s.rels ∧
    (Slide.setSlideNumber propagate s v log).1.relsChart = s.relsChart ∧
    (Slide.setSlideNumber propagate s v log).1.relsMedia = s.relsMedia ∧
    (Slide.setSlideNumber propagate s v log).1.slideLayout = s.slideLayout ∧
    (Slide.setSlideNumber propagate s v log).1._bkgd = s._bkgd ∧
    (Slide.setSlideNumber propagate s v log).1._background = s._background ∧
    (Slide.setSlideNumber propagate s v log).1._color = s._color ∧
    (Slide.setSlideNumber propagate s v log).1._hidden = s._hidden ∧
    (Slide.setSlideNumber propagate s v log).1.notes = s.notes := by
  refine ⟨?_, rfl, rfl, rfl, rfl, rfl, rfl, rfl, rfl, rfl, rfl, rfl, rfl, rfl, rfl, rfl, rfl⟩
  simpa [Slide.setSlideNumber] using h

/-- C3 witness: the amended theorem applied at a concrete failing input. -/
theorem C3_propagation_failure_surfaces_witness :
    (Slide.setSlideNumber failingPropagate (newSlide exParams) exSpec []).2.2
      = some (.validationError "propagateSlideNumber failed") ∧
    (Slide.setSlideNumber failingPropagate (newSlide exParams) exSpec []).1.slideNumberObj
      = some exSpec :=
  ⟨(C3_propagation_failure_surfaces failingPropagate (newSlide exParams) exSpec [] _ rfl).1,
   (C3_propagation_failure_surfaces failingPropagate (newSlide exParams) exSpec [] _ rfl).2.1⟩

/-- C4: writing `background` then reading it returns exactly the written
value, and the written value takes precedence over any previously set
legacy single-color `bkgd` value for serialization purposes. -/
theorem C4_background_roundtrip_precedence (s : Slide) (v : BkgdOpts) :
    (s.setBackground v).getBackground = some v ∧
    effectiveBackground (s.setBackground v) = some (Sum.inl v) :=
  ⟨rfl, rfl⟩

/-- C5: `addTable` with an empty row set fails with a ValidationError and
returns the slide completely unchanged (atomicity). -/
theorem C5_addTable_empty_atomic (s : Slide) (opts : Option ITableOptions) :
    (s.addTable [] opts).2 = some (.validationError "addTable: empty row set") ∧
    (s.addTable [] opts).1 = s :=
  ⟨rfl, rfl⟩

/-- C9: `addChart` with a non-null options object observably mutates the
caller's object — its `_type` field becomes the chart type while every
other field is preserved; with a null options object nothing is observable
to the caller. -/
theorem C9_addChart_mutates_caller_options (s : Slide) (ty : ChartTypeArg)
    (dat : List ChartData) (o : IChartOpts) :
    (s.addChart ty dat (some o)).2 = some { o with _type := some ty } ∧
    (s.addChart ty dat none).2 = none :=
  ⟨rfl, rfl⟩

/-- C10: writing the legacy `bkgd` property stores exactly the given
string and reading it back returns it; a subsequent `background` write
leaves the stored `bkgd` value intact while storing its own value — the
two representations coexist. -/
theorem C10_bkgd_roundtrip_coexists (s : Slide) (v : String) (w : BkgdOpts) :
    (s.setBkgd v).getBkgd = some v ∧
    ((s.setBkgd v).setBackground w).getBkgd = some v ∧
    ((s.setBkgd v).setBackground w).getBackground = some w :=
  ⟨rfl, rfl, rfl⟩

/-- C7: every composition operation, on success or failure, returns the
Slide it was invoked on (`return this`): in the embedding the returned
slide is the receiver's post-state, and in particular the immutable
identity fields `id`, `rId`, `number` of the returned slide are those of
the receiver. -/
theorem C7_composition_returns_self (s : Slide) (c : CompCall) (t : String) :
    ((applyCall s c).1.id = s.id ∧ (applyCall s c).1.rId = s.rId ∧
      (applyCall s c).1.number = s.number) ∧
    ((s.addNotes t).1.id = s.id ∧ (s.addNotes t).1.rId = s.rId ∧
      (s.addNotes t).1.number = s.number) := by
  refine ⟨?_, rfl, rfl, rfl⟩
  cases c with
  | table r o =>
      by_cases hr : r.isEmpty <;>
        simp [applyCall, Slide.addTable, genObj.addTableDefinition, hr]
  | text t o => exact ⟨rfl, rfl, rfl⟩
  | shape n o => exact ⟨rfl, rfl, rfl⟩
  | image o => exact ⟨rfl, rfl, rfl⟩
  | media o => exact ⟨rfl, rfl, rfl⟩
  | chart ty d o => exact ⟨rfl, rfl, rfl⟩
  | xml x => exact ⟨rfl, rfl, rfl⟩

/-- Helper: the next relationship id is one past the total entry count. -/
theorem nextRelId_eq_relCount (s : Slide) : s.nextRelId = relCount s + 1 := rfl

/-- Helper: each resource-bearing call adds exactly one relationship. -/
theorem relCount_applyResource (s : Slide) (c : ResourceCall) :
    relCount (applyResource s c) = relCount s + 1 := by
  cases c <;>
    simp [applyResource, relCount, Slide.addImage, Slide.addMedia, Slide.addChart,
      genObj.addImageDefinition, genObj.addMediaDefinition, genObj.addChartDefinition] <;>
    omega

/-- Helper: appending an element in the middle is a permutation of
appending it at the end. -/
theorem perm_middle_snoc (a b : List Nat) (x : Nat) :
    (a ++ ([x] ++ b)).Perm ((a ++ b) ++ [x]) := by
  have h1 : (a ++ ([x] ++ b)).Perm (a ++ (b ++ [x])) :=
    List.Perm.append_left a List.perm_append_comm
  simpa [List.append_assoc] using h1

/-- Helper: one resource-bearing call adds exactly the freshly allocated
id to the combined id list, up to permutation. -/
theorem relIds_applyResource (s : Slide) (c : ResourceCall) :
    (relIds (applyResource s c)).Perm (relIds s ++ [s.nextRelId]) := by
  cases c with
  | image o =>
      have h := perm_middle_snoc (s.rels.map ISlideRel.rId)
        (s.relsChart.map ISlideRelChart.rId ++ s.relsMedia.map ISlideRelMedia.rId)
        s.nextRelId
      simpa [relIds, applyResource, Slide.addImage, genObj.addImageDefinition,
        List.append_assoc] using h
  | media o =>
      simp [relIds, applyResource, Slide.addMedia, genObj.addMediaDefinition,
        List.append_assoc]
  | chart ty d o =>
      have h := perm_middle_snoc
        (s.rels.map ISlideRel.rId ++ s.relsChart.map ISlideRelChart.rId)
        (s.relsMedia.map ISlideRelMedia.rId) s.nextRelId
      simpa [relIds, applyResource, Slide.addChart, genObj.addChartDefinition,
        List.append_assoc] using h

/-- Helper: the ids a run allocates are consecutive, starting one past the
current total entry count. -/
theorem allocLog_eq_range (calls : List ResourceCall) :
    ∀ s : Slide, allocLog s calls = List.range' (relCount s + 1) calls.length := by
  induction calls with
  | nil => intro s; rfl
  | cons c cs ih =>
      intro s
      simp [allocLog, ih (applyResource s c), relCount_applyResource,
        nextRelId_eq_relCount, List.range'_succ]

/-- Helper: the combined id list after a run is, up to permutation, the
prior id list followed by the run's allocation log. -/
theorem relIds_runResource_perm (calls : List ResourceCall) :
    ∀ s : Slide, (relIds (runResource s calls)).Perm (relIds s ++ allocLog s calls) := by
  induction calls with
  | nil => intro s; simp [runResource, allocLog]
  | cons c cs ih =>
      intro s
      have h1 := ih (applyResource s c)
      have h2 : (relIds (applyResource s c) ++ allocLog (applyResource s c) cs).Perm
          ((relIds s ++ [s.nextRelId]) ++ allocLog (applyResource s c) cs) :=
        (relIds_applyResource s c).append_right _
      have h3 := h1.trans h2
      simpa [runResource, allocLog, List.append_assoc] using h3

/-- C6: over any sequence of resource-bearing composition calls on a fresh
slide, the k-th allocated relationship id is exactly k (so ids are unique
and strictly increasing starting at 1, regardless of resource kind); the
three tables together hold exactly those ids, without duplicates; and no
call ever deletes a relationship entry — each table only grows. -/
theorem C6_relationship_id_allocation (p : SlideParams) (calls : List ResourceCall) :
    allocLog (newSlide p) calls = List.range' 1 calls.length ∧
    (relIds (runResource (newSlide p) calls)).Perm (List.range' 1 calls.length) ∧
    (relIds (runResource (newSlide p) calls)).Nodup ∧
    (∀ (s : Slide) (c : ResourceCall),
      (∃ t, (applyResource s c).rels = s.rels ++ t) ∧
      (∃ t, (applyResource s c).relsChart = s.relsChart ++ t) ∧
      (∃ t, (applyResource s c).relsMedia = s.relsMedia ++ t)) := by
  have hlog : allocLog (newSlide p) calls = List.range' 1 calls.length := by
    simpa using allocLog_eq_range calls (newSlide p)
  have hperm : (relIds (runResource (newSlide p) calls)).Perm (List.range' 1 calls.length) := by
    have h := relIds_runResource_perm calls (newSlide p)
    rw [hlog] at h
    simpa [relIds, newSlide] using h
  refine ⟨hlog, hperm, hperm.nodup_iff.mpr (List.nodup_range' 1 calls.length 1 Nat.one_pos), ?_⟩
  intro s c
  cases c with
  | image o =>
      exact ⟨⟨_, rfl⟩,
        ⟨[], by simp [applyResource, Slide.addImage, genObj.addImageDefinition]⟩,
        ⟨[], by simp [applyResource, Slide.addImage, genObj.addImageDefinition]⟩⟩
  | media o =>
      exact ⟨⟨[], by simp [applyResource, Slide.addMedia, genObj.addMediaDefinition]⟩,
        ⟨[], by simp [applyResource, Slide.addMedia, genObj.addMediaDefinition]⟩,
        ⟨_, rfl⟩⟩
  | chart ty d o =>
      exact ⟨⟨[], by simp [applyResource, Slide.addChart, genObj.addChartDefinition]⟩,
        ⟨_, rfl⟩,
        ⟨[], by simp [applyResource, Slide.addChart, genObj.addChartDefinition]⟩⟩

/-- Helper: a successful composition call appends exactly one content
entry, and that entry matches the call. -/
theorem applyCall_success_step (s s₁ : Slide) (c : CompCall)
    (h : applyCall s c = (s₁, none)) :
    ∃ obj, s₁.data = s.data ++ [obj] ∧ entryMatches c obj := by
  cases c with
  | text t o =>
      injection h with h1 h2
      exact ⟨_, by rw [← h1], rfl, rfl⟩
  | shape n o =>
      injection h with h1 h2
      exact ⟨_, by rw [← h1], rfl, rfl⟩
  | image o =>
      injection h with h1 h2
      exact ⟨_, by rw [← h1], rfl, rfl⟩
  | media o =>
      injection h with h1 h2
      exact ⟨_, by rw [← h1], rfl, rfl⟩
  | table r o =>
      by_cases hr : r.isEmpty
      · simp [applyCall, Slide.addTable, genObj.addTableDefinition, hr] at h
      · simp only [applyCall, Slide.addTable, genObj.addTableDefinition, hr,
          if_false, Bool.false_eq_true] at h
        obtain ⟨h1, -⟩ := Prod.mk.injEq .. ▸ h
        exact ⟨_, by rw [← h1], rfl, rfl⟩
  | chart ty d o =>
      injection h with h1 h2
      exact ⟨_, by rw [← h1], rfl, rfl, rfl⟩
  | xml x =>
      injection h with h1 h2
      exact ⟨_, by rw [← h1], rfl, rfl⟩

/-- Helper: a fully successful run appends one matching entry per call, in
call order. -/
theorem runCalls_success_data (calls : List CompCall) :
    ∀ s s' : Slide, runCalls s calls = (s', none) →
      ∃ t, s'.data = s.data ++ t ∧ List.Forall₂ entryMatches calls t := by
  induction calls with
  | nil =>
      intro s s' h
      injection h with h1 h2
      exact ⟨[], by rw [← h1]; simp, List.Forall₂.nil⟩
  | cons c cs ih =>
      intro s s' h
      rcases hc : applyCall s c with ⟨s₁, e⟩
      cases e with
      | none =>
          have hrest : runCalls s₁ cs = (s', none) := by
            have : runCalls s (c :: cs) =
                (match applyCall s c with
                 | (s', none) => runCalls s' cs
                 | (s', some e) => (s', some e)) := rfl
            rw [this, hc] at h
            exact h
          obtain ⟨obj, hobj, hm⟩ := applyCall_success_step s s₁ c hc
          obtain ⟨t, ht, hf⟩ := ih s₁ s' hrest
          exact ⟨obj :: t, by rw [ht, hobj]; simp, List.Forall₂.cons hm hf⟩
      | some e' =>
          exfalso
          have : runCalls s (c :: cs) = (s₁, some e') := by
            have heq : runCalls s (c :: cs) =
                (match applyCall s c with
                 | (s', none) => runCalls s' cs
                 | (s', some e) => (s', some e)) := rfl
            rw [heq, hc]
          rw [this] at h
          injection h with h1 h2
          exact Option.noConfusion h2

/-- C1: on a fresh slide, any fully successful sequence of the seven
visible-content composition calls yields a content list of exactly that
length whose entries match the calls in call order; every public operation
only ever appends to the content list (no removal or reordering); and
`addNotes` updates the reserved notes slot without touching the content
list. -/
theorem C1_content_append_order :
    (∀ (p : SlideParams) (calls : List CompCall) (s' : Slide),
        runCalls (newSlide p) calls = (s', none) →
        s'.data.length = calls.length ∧ List.Forall₂ entryMatches calls s'.data) ∧
    (∀ (propagate : ISlideNumber → Option PptxError) (s : Slide) (op : PublicOp),
        ∃ t, (applyPublic propagate s op).data = s.data ++ t) ∧
    (∀ (s : Slide) (t : String),
        (s.addNotes t).1.data = s.data ∧ (s.addNotes t).1.notes = some t) := by
  refine ⟨?_, ?_, fun s t => ⟨rfl, rfl⟩⟩
  · intro p calls s' h
    obtain ⟨t, ht, hf⟩ := runCalls_success_data calls (newSlide p) s' h
    have hdata : s'.data = t := by simpa [newSlide] using ht
    rw [hdata]
    exact ⟨hf.length_eq.symm, hf⟩
  · intro propagate s op
    cases op with
    | comp c =>
        cases c with
        | table r o =>
            by_cases hr : r.isEmpty
            · exact ⟨[], by simp [applyPublic, applyCall, Slide.addTable,
                genObj.addTableDefinition, hr]⟩
            · exact ⟨[{ _type := .table, rows := some r }],
                by simp [applyPublic, applyCall, Slide.addTable,
                  genObj.addTableDefinition, hr]⟩
        | text t o => exact ⟨_, rfl⟩
        | shape n o => exact ⟨_, rfl⟩
        | image o => exact ⟨_, rfl⟩
        | media o => exact ⟨_, rfl⟩
        | chart ty d o => exact ⟨_, rfl⟩
        | xml x => exact ⟨_, rfl⟩
    | notes t => exact ⟨[], by simp [applyPublic, Slide.addNotes, genObj.addNotesDefinition]⟩
    | bkgdWrite v => exact ⟨[], by simp [applyPublic, Slide.setBkgd]⟩
    | backgroundWrite v =>
        exact ⟨[], by simp [applyPublic, Slide.setBackground, genObj.addBackgroundDefinition]⟩
    | colorWrite v => exact ⟨[], by simp [applyPublic, Slide.setColor]⟩
    | hiddenWrite v => exact ⟨[], by simp [applyPublic, Slide.setHidden]⟩
    | slideNumberWrite v =>
        exact ⟨[], by simp [applyPublic, Slide.setSlideNumber]⟩

/-- C1 witness: the main theorem applied to a concrete three-call run. -/
theorem C1_content_append_order_witness :
    (runCalls (newSlide exParams) exCalls).1.data.length = 3 ∧
    List.Forall₂ entryMatches exCalls (runCalls (newSlide exParams) exCalls).1.data :=
  C1_content_append_order.1 exParams exCalls (runCalls (newSlide exParams) exCalls).1 rfl

end Theorems

end PptxGenJS
